import Mathlib

/-!
Verification of the guava script-writing assistant.

The repository contains two variants of the same transcript-to-script flow:
guavawriter2.py (class GuavaWriter plus its Streamlit main handlers) and
simplified-app.py (top-level functions plus inline Streamlit handlers).
This file gives a shallow embedding of the session-state data model and of
the operations the specification talks about, translated directly from the
Python source, and proves or refutes the stated properties.

Python strings are modeled as Lean String values; the handful of Python
str methods the source uses (strip, split, startswith, isdigit, int(...),
truthiness) are modeled explicitly over the underlying character list so
that every definition is executable by the kernel.
-/

/-- Whitespace characters stripped by Python str.strip with no argument. -/
def pyIsSpace (c : Char) : Bool :=
  c = ' ' || c = '\t' || c = '\n' || c = '\r' || c = '\x0b' || c = '\x0c'

/-- Python s.strip(): remove leading and trailing whitespace. -/
def pyStrip (s : String) : String :=
  String.mk (((s.data.dropWhile pyIsSpace).reverse.dropWhile pyIsSpace).reverse)

/-- Helper for pySplitLines: accumulate characters of the current chunk. -/
def pySplitLinesAux : List Char → List Char → List String
  | [], acc => [String.mk acc.reverse]
  | ch :: rest, acc =>
    if ch = '\n' then String.mk acc.reverse :: pySplitLinesAux rest []
    else pySplitLinesAux rest (ch :: acc)

/-- Python s.split(chr(10)): split on newline, keeping empty chunks. -/
def pySplitLines (s : String) : List String :=
  pySplitLinesAux s.data []

/-- Boolean list-prefix test over characters. -/
def isPrefixChars : List Char → List Char → Bool
  | [], _ => true
  | _ :: _, [] => false
  | p :: ps, x :: xs => p = x && isPrefixChars ps xs

/-- Python s.startswith(pre). -/
def pyStartsWith (s pre : String) : Bool :=
  isPrefixChars pre.data s.data

/-- Python (c in s) for a single character c. -/
def pyContainsChar (s : String) (c : Char) : Bool :=
  s.data.contains c

/-- Everything after the first occurrence of c, or [] when c is absent. -/
def pyAfterFirst (c : Char) : List Char → List Char
  | [] => []
  | x :: xs => if x = c then xs else pyAfterFirst c xs

/-- Python s.split(c, 1)[1]; the source only evaluates it when c occurs in s. -/
def pySplitAfterColon (s : String) : String :=
  String.mk (pyAfterFirst ':' s.data)

/-- Python s.isdigit() restricted to ASCII digits: nonempty and all digits. -/
def pyIsDigitStr (s : String) : Bool :=
  !s.data.isEmpty && s.data.all Char.isDigit

/-- Python int(s) for a digit string s. -/
def pyInt (s : String) : Nat :=
  s.data.foldl (fun n c => 10 * n + (c.toNat - 48)) 0

/-- Python truthiness of an optional string: None and the empty string are falsy. -/
def pyTruthy : Option String → Bool
  | none => false
  | some s => s != ""

/-- String append is associative; proved over the underlying character lists. -/
theorem strAppendAssoc : ∀ a b c : String, a ++ b ++ c = a ++ (b ++ c)
  | ⟨a⟩, ⟨b⟩, ⟨c⟩ => congrArg String.mk (List.append_assoc a b c)

namespace GuavaWriter

/-!
Embeddings from src/guavawriter2.py. The outbound Anthropic call is modeled
by an explicit argument of type Except String String: Except.ok resp is the
response body text, Except.error msg is a raised exception.
-/

/-- Outcome of GuavaWriter.generate_ideas. The source signals the first two
cases through st.error with distinct messages and returns an empty list;
they are kept apart here so the error mode is observable. -/
inductive IdeasOutcome where
  | emptyTranscript
  | serviceError (msg : String)
  | ok (ideas : List String)
deriving DecidableEq

/-- One iteration of the parsing loop in GuavaWriter.generate_ideas
(lines 114-123): a line whose stripped form starts with Idea and which
contains a colon starts a new idea; otherwise a nonblank line is appended
to the active idea when one exists. The pair carries (ideas, current_idea). -/
def ideaLineStep (st : List String × Option String) (line : String) :
    List String × Option String :=
  match st with
  | (ideas, current) =>
    if pyStartsWith (pyStrip line) "Idea" && pyContainsChar line ':' then
      (if pyTruthy current then ideas ++ [current.getD ""] else ideas,
       some (pyStrip (pySplitAfterColon line)))
    else if pyTruthy current && pyStrip line != "" then
      (ideas, some (current.getD "" ++ " " ++ pyStrip line))
    else (ideas, current)

/-- The response-parsing part of GuavaWriter.generate_ideas (lines 114-128):
fold the line loop over the split response, flush the last active idea,
truncate to the first 3. -/
def parseIdeas (text : String) : List String :=
  match (pySplitLines text).foldl ideaLineStep ([], none) with
  | (ideas, current) =>
    (if pyTruthy current then ideas ++ [current.getD ""] else ideas).take 3

/-- GuavaWriter.generate_ideas (lines 87-132): reject an empty or too-short
transcript before the outbound call; otherwise consult the service and
parse its response, turning a raised exception into the caught error path. -/
def generate_ideas (transcript : String) (complete : Except String String) :
    IdeasOutcome :=
  if transcript = "" ∨ (pyStrip transcript).length < 10 then
    IdeasOutcome.emptyTranscript
  else
    match complete with
    | Except.error e => IdeasOutcome.serviceError e
    | Except.ok resp => IdeasOutcome.ok (parseIdeas resp)

/-- One block of GuavaWriter.format_revision_history (line 175). -/
def versionBlock (i : Nat) (script feedback : String) : String :=
  "\nVERSION " ++ toString i ++ ":\n" ++ script ++ "\nFEEDBACK:\n" ++ feedback ++ "\n---"

/-- The accumulation loop of format_revision_history, with i the ordinal of
the next entry (enumerate(history, 1)). -/
def formatFrom (i : Nat) : List (String × String) → String
  | [] => ""
  | (script, feedback) :: rest => versionBlock i script feedback ++ formatFrom (i + 1) rest

/-- GuavaWriter.format_revision_history (lines 170-176), as a pure function
of the revision history it reads from session state. -/
def format_revision_history (history : List (String × String)) : String :=
  formatFrom 1 history

/-- The per-conversation session state kept in
st.session_state.current_context (guavawriter2.py lines 52-58). -/
structure SessionState where
  transcript : Option String
  selected_idea : Option String
  current_script : Option String
  revision_history : List (String × String)
deriving DecidableEq

/-- The initial current_context (lines 53-58). -/
def initialState : SessionState :=
  ⟨none, none, none, []⟩

/-- The Ideate handler (lines 216-237) as a state transition: on a
successful transcript fetch the transcript field is overwritten; a raised
exception is caught after no field was assigned. The generated ideas only
feed the chat message, not current_context. -/
def ideateStep (s : SessionState) (fetch : Except String String) : SessionState :=
  match fetch with
  | Except.ok t => { s with transcript := some t }
  | Except.error _ => s

/-- Result of the idea-selection handler body (lines 242-245). -/
inductive SelectOutcome where
  | selected (idea : String)
  | noop
  | indexError
deriving DecidableEq

/-- The selection logic of lines 242-244: the input must be a nonempty digit
string whose value lies in 1..3; then the (1-based) index is taken into the
freshly regenerated idea list, raising IndexError when the list is shorter.
Any other input falls through with no effect and no error. -/
def selectIdea (ideas : List String) (input : String) : SelectOutcome :=
  if input ≠ "" ∧ pyIsDigitStr input = true ∧ 1 ≤ pyInt input ∧ pyInt input ≤ 3 then
    match ideas[pyInt input - 1]? with
    | some idea => SelectOutcome.selected idea
    | none => SelectOutcome.indexError
  else SelectOutcome.noop

/-- The idea-selection handler (lines 240-249) as a state transition. The
handler is rendered only when the transcript is truthy and no idea is
selected yet; ideas is the result of the generate_ideas call it makes. On
IndexError the uncaught exception leaves the state unchanged. -/
def selectStep (s : SessionState) (ideas : List String) (input : String) : SessionState :=
  if pyTruthy s.transcript ∧ ¬ pyTruthy s.selected_idea then
    match selectIdea ideas input with
    | SelectOutcome.selected idea => { s with selected_idea := some idea }
    | _ => s
  else s

/-- The Generate/Update Script handler (lines 252-275) as a state
transition: when an idea is selected, the prior script (if truthy) is first
appended to revision_history paired with the entered direction, then the
gateway is consulted; on success current_script is overwritten, and a
raised exception is caught after the append already happened. -/
def generateStep (s : SessionState) (direction : String) (gw : Except String String) :
    SessionState :=
  if pyTruthy s.selected_idea then
    let s1 :=
      if pyTruthy s.current_script then
        { s with revision_history :=
            s.revision_history ++ [(s.current_script.getD "", direction)] }
      else s
    match gw with
    | Except.ok newScript => { s1 with current_script := some newScript }
    | Except.error _ => s1
  else s

/-- The user-triggered actions of the guavawriter2 main loop. -/
inductive Action where
  | ideate (fetch : Except String String)
  | select (ideas : List String) (input : String)
  | generate (direction : String) (gw : Except String String)
  | approve

/-- One request/response cycle of the main loop. Approve only renders a
download button and never writes current_context. -/
def applyAction (s : SessionState) : Action → SessionState
  | Action.ideate fetch => ideateStep s fetch
  | Action.select ideas input => selectStep s ideas input
  | Action.generate direction gw => generateStep s direction gw
  | Action.approve => s

/-- Session states reachable from the initial current_context. -/
inductive Reachable : SessionState → Prop where
  | init : Reachable initialState
  | next (s : SessionState) (a : Action) : Reachable s → Reachable (applyAction s a)

end GuavaWriter

namespace SimplifiedApp

/-!
Embeddings from src/simplified-app.py (the v0.001 variant of the same flow).
-/

/-- format_history (lines 56-61); its Python body is character-for-character
the body of GuavaWriter.format_revision_history, so it is modeled by the
same accumulation loop. -/
def format_history (history : List (String × String)) : String :=
  GuavaWriter.formatFrom 1 history

/-- The revise-mode prompt of generate_script (line 68). -/
def reviseRequest (history currentScript feedback : String) : String :=
  "Revise this script based on the feedback and revision history:\n" ++ history ++
  "\nCURRENT SCRIPT:\n" ++ currentScript ++ "\nNEW FEEDBACK:\n" ++ feedback

/-- The compose-mode prompt of generate_script (line 70). -/
def composeRequest (idea direction transcript : String) : String :=
  "Create a 60-second video script about this AI development:\n\n" ++ idea ++
  "\n\nDirection:\n" ++ direction ++ "\n\nContext:\n" ++ transcript

/-- The prompt built by generate_script (lines 63-70): the history context
is serialized only when the history is nonempty, and the revise prompt is
chosen exactly when both current_script and direction are truthy. -/
def generate_script_prompt (history : List (String × String))
    (transcript idea direction : String) (current_script : Option String) : String :=
  let h := if history ≠ [] then format_history history else ""
  if pyTruthy current_script ∧ direction ≠ "" then
    reviseRequest h (current_script.getD "") direction
  else composeRequest idea direction transcript

/-- generate_script (lines 63-78): one outbound call on the built prompt,
whose response text is returned unmodified. The service is modeled as a
function from prompt to response body. -/
def generate_script (complete : String → String) (history : List (String × String))
    (transcript idea direction : String) (current_script : Option String) : String :=
  complete (generate_script_prompt history transcript idea direction current_script)

/-- The session state of simplified-app.py (lines 13-22); unlike
guavawriter2 it also stores the generated idea list. -/
structure AppState where
  transcript : Option String
  ideas : Option (List String)
  selected_idea : Option String
  current_script : Option String
  revision_history : List (String × String)
deriving DecidableEq

/-- The idea-selection radio handler (lines 103-109) as a state transition:
whenever the stored idea list is truthy the radio is rendered with options
[""] ++ ideas, and the chosen option is written to selected_idea
unconditionally (the guarded assignment on line 108 is shadowed by the
unguarded one on line 109). -/
def radioStep (s : AppState) (choice : String) : AppState :=
  match s.ideas with
  | some l =>
    if l ≠ [] ∧ choice ∈ "" :: l then { s with selected_idea := some choice } else s
  | none => s

/-- generate_ideas from simplified-app.py (lines 39-54): no transcript
length check exists, so the outbound call is always made and a raised
exception propagates to the caller. The response is parsed by collecting
only the raw lines that start with the marker, taking the stripped text
after the first five characters; continuation lines are dropped. The
transcript only feeds the prompt body of the call. -/
def generate_ideas (transcript : String) (complete : Except String String) :
    Except String (List String) :=
  match complete with
  | Except.error e => Except.error e
  | Except.ok resp =>
    Except.ok
      (((pySplitLines resp).foldl
        (fun ideas line =>
          if pyStartsWith line "Idea:" then
            ideas ++ [pyStrip (String.mk (line.data.drop 5))]
          else ideas) []).take 3)

end SimplifiedApp

open GuavaWriter

/-- Appending one entry to a history appends exactly one block whose ordinal
continues the enumeration that started at i. -/
theorem formatFrom_append (h : List (String × String)) (s f : String) :
    ∀ i : Nat, formatFrom i (h ++ [(s, f)])
      = formatFrom i h ++ versionBlock (i + h.length) s f := by
  induction h with
  | nil =>
    intro i
    simp [formatFrom, String.append_empty, String.empty_append]
  | cons hd tl ih =>
    intro i
    obtain ⟨a, b⟩ := hd
    have hlen : i + 1 + tl.length = i + (tl.length + 1) := by omega
    simp only [List.cons_append, formatFrom, List.length_cons, List.append_eq]
    rw [ih (i + 1), ← hlen, strAppendAssoc]

/-- C10: when the revision history is empty, the serialization is the empty
string in both variants: no header, placeholder block, or separator. -/
theorem format_history_empty_string :
    format_revision_history [] = "" ∧ SimplifiedApp.format_history [] = "" :=
  ⟨rfl, rfl⟩

/-- C8: format_revision_history serializes the history in chronological
append order with 1-based ordinals matching append order: extending the
history by one entry extends the serialization by exactly one trailing
block that carries the new ordinal, that entry's script text, and the
feedback that superseded it. The serialization is a pure function of the
history (the source only reads session state), so it never mutates it. -/
theorem format_revision_history_chronological (h : List (String × String)) (s f : String) :
    format_revision_history (h ++ [(s, f)])
      = format_revision_history h ++ versionBlock (h.length + 1) s f := by
  have := formatFrom_append h s f 1
  simpa [format_revision_history, Nat.add_comm] using this

/-- C5 counterexample: the claim is false for the cited simplified-app
variant of the parser: on the very same response body it collects only the
marker-prefixed lines and drops the continuation line, so the first idea
comes back as the bare first marker text instead of the claimed merged
string. -/
theorem simplified_parser_drops_continuation_counterexample :
    SimplifiedApp.generate_ideas "a sufficiently long transcript"
        (Except.ok "Idea: A thing\nmore detail\nIdea: Second\nIdea: Third\nIdea: Fourth")
      = Except.ok ["A thing", "Second", "Third"] ∧
    (["A thing", "Second", "Third"] : List String)
      ≠ ["A thing more detail", "Second", "Third"] :=
  ⟨rfl, by decide⟩

/-- C5 (amended): in the guavawriter2 variant, idea parsing on the given
response body yields exactly the three claimed strings: marker lines start
a new idea, following nonblank lines are merged into the active idea, and
the result is cut to the first 3. The simplified-app variant keeps only
marker lines and so returns a different list for the same body. -/
theorem generate_ideas_parsing_round_trip :
    generate_ideas "a sufficiently long transcript"
        (Except.ok "Idea: A thing\nmore detail\nIdea: Second\nIdea: Third\nIdea: Fourth")
      = IdeasOutcome.ok ["A thing more detail", "Second", "Third"] := by
  decide

/-- C3 counterexample: loading a new transcript does not reset the session.
On a session holding a selected idea, a current script and one history
entry, a successful Ideate leaves all three exactly as they were and only
overwrites the transcript, so the reset the claim demands does not happen. -/
theorem ideate_no_reset_counterexample :
    ideateStep ⟨some "old", some "X", some "script", [("a", "b")]⟩
        (Except.ok "new transcript")
      = ⟨some "new transcript", some "X", some "script", [("a", "b")]⟩ ∧
    ([("a", "b")] : List (String × String)) ≠ [] ∧
    (some "X" : Option String) ≠ none := by
  decide

/-- C3 (amended): a transcript load overwrites the transcript field only;
IdeaSet is not stored in the guavawriter2 session, and SelectedIdea,
CurrentScript and RevisionHistory all survive unchanged, so a new load is
not a session boundary. A failed fetch changes nothing at all. -/
theorem ideate_overwrites_transcript_only (s : SessionState) (t e : String) :
    (ideateStep s (Except.ok t)).transcript = some t ∧
    (ideateStep s (Except.ok t)).selected_idea = s.selected_idea ∧
    (ideateStep s (Except.ok t)).current_script = s.current_script ∧
    (ideateStep s (Except.ok t)).revision_history = s.revision_history ∧
    ideateStep s (Except.error e) = s := by
  refine ⟨rfl, rfl, rfl, rfl, rfl⟩

/-- C7 counterexample: the claim is false for the cited simplified-app
variant, whose generate_ideas contains no length threshold at all: on the
whitespace-only transcript the outcome is whatever the service produces —
a response is parsed and a raised exception propagates — so the outbound
call is made and no empty-transcript error is ever signaled. -/
theorem simplified_no_threshold_counterexample :
    SimplifiedApp.generate_ideas "   " (Except.ok "Idea: X") = Except.ok ["X"] ∧
    SimplifiedApp.generate_ideas "   " (Except.error "boom") = Except.error "boom" :=
  ⟨rfl, rfl⟩

/-- C7 (amended): in the guavawriter2 variant, generate_ideas signals the
too-short-transcript error exactly when the stripped transcript has fewer
than 10 characters, independently of the generation service (so no
outbound call can be observed in that case), and never signals it at or
above the threshold; in particular the whitespace transcript of three
spaces is always rejected this way. The simplified-app variant performs no
threshold check and always makes the outbound call. -/
theorem generate_ideas_short_transcript_guard :
    (∀ (t : String) (c : Except String String),
        generate_ideas t c = IdeasOutcome.emptyTranscript
          ↔ (pyStrip t).length < 10) ∧
    (∀ c : Except String String,
        generate_ideas "   " c = IdeasOutcome.emptyTranscript) := by
  constructor
  · intro t c
    by_cases h : t = "" ∨ (pyStrip t).length < 10
    · unfold generate_ideas
      rw [if_pos h]
      rcases h with he | hl
      · subst he
        simp only [true_iff]
        decide
      · simp [hl]
    · unfold generate_ideas
      rw [if_neg h]
      push_neg at h
      cases c with
      | error e => simp [h.2]
      | ok resp => simp [h.2]
  · intro c
    unfold generate_ideas
    rw [if_pos (Or.inr (by decide))]

/-- C2 counterexample: a failed generation call does not leave the session
state unchanged. On a session with a selected idea and a current script,
the handler appends (current script, feedback) to the revision history
before the gateway call, so after the exception the history has grown. -/
theorem failed_generation_mutates_history_counterexample :
    generateStep ⟨some "t", some "idea", some "draft", []⟩ "fb" (Except.error "boom")
      = ⟨some "t", some "idea", some "draft", [("draft", "fb")]⟩ ∧
    generateStep ⟨some "t", some "idea", some "draft", []⟩ "fb" (Except.error "boom")
      ≠ ⟨some "t", some "idea", some "draft", []⟩ := by
  decide

/-- C2 (amended): when the generation call raises, CurrentScript (and the
transcript and selected idea) are unchanged, but the history append has
already happened: RevisionHistory gains the entry (CurrentScript, feedback)
whenever an idea is selected and a script was present. Only when
CurrentScript was unset is the whole state left untouched. -/
theorem failed_generation_appends_before_call (s : SessionState) (d e : String) :
    (generateStep s d (Except.error e)).current_script = s.current_script ∧
    (generateStep s d (Except.error e)).transcript = s.transcript ∧
    (generateStep s d (Except.error e)).selected_idea = s.selected_idea ∧
    (generateStep s d (Except.error e)).revision_history
      = s.revision_history ++
        (if pyTruthy s.selected_idea ∧ pyTruthy s.current_script then
          [(s.current_script.getD "", d)] else []) ∧
    (s.current_script = none → generateStep s d (Except.error e) = s) := by
  by_cases hsel : pyTruthy s.selected_idea
  · by_cases hcur : pyTruthy s.current_script
    · refine ⟨?_, ?_, ?_, ?_, ?_⟩ <;>
        simp [generateStep, hsel, hcur]
      intro hnone
      rw [hnone] at hcur
      simp [pyTruthy] at hcur
    · refine ⟨?_, ?_, ?_, ?_, ?_⟩ <;>
        simp [generateStep, hsel, hcur]
  · refine ⟨?_, ?_, ?_, ?_, ?_⟩ <;>
      simp [generateStep, hsel]

/-- Witness for failed_generation_appends_before_call at a concrete state
whose script is unset: the failed call leaves the state untouched. -/
theorem failed_generation_appends_before_call_witness :
    generateStep ⟨some "t", some "idea", none, []⟩ "d" (Except.error "x")
      = ⟨some "t", some "idea", none, []⟩ :=
  (failed_generation_appends_before_call ⟨some "t", some "idea", none, []⟩ "d" "x").2.2.2.2 rfl

/-- C1 counterexample: the pairing property fails when the first generated
script is the empty string. From a fresh session, a first generation of the
empty text sets CurrentScript to the (set but falsy) empty string, and the
second generation appends nothing at all, rather than the entry required by
the claim. -/
theorem recordGeneration_empty_text_counterexample :
    (generateStep ⟨some "t", some "idea", none, []⟩ "fb1" (Except.ok "")).current_script
      = some "" ∧
    (generateStep (generateStep ⟨some "t", some "idea", none, []⟩ "fb1" (Except.ok ""))
        "fb2" (Except.ok "text2")).revision_history = [] ∧
    ([] : List (String × String)) ≠ [("", "fb2")] := by
  decide

/-- C1 (amended): from a session with an idea selected, CurrentScript unset
and an empty history, a first generation of text1 with feedback fb1 leaves
the history empty and sets CurrentScript to text1, and a second generation
of text2 with feedback fb2 appends exactly the entry (text1, fb2) and sets
CurrentScript to text2 — provided text1 is nonempty, because the handler
tests Python truthiness of the stored script before appending. -/
theorem recordGeneration_pairs_prior_script_with_feedback
    (s : SessionState) (t1 fb1 t2 fb2 : String)
    (hsel : pyTruthy s.selected_idea = true)
    (hcur : s.current_script = none)
    (hhist : s.revision_history = [])
    (ht1 : t1 ≠ "") :
    (generateStep s fb1 (Except.ok t1)).revision_history = [] ∧
    (generateStep s fb1 (Except.ok t1)).current_script = some t1 ∧
    (generateStep (generateStep s fb1 (Except.ok t1)) fb2 (Except.ok t2)).revision_history
      = [(t1, fb2)] ∧
    (generateStep (generateStep s fb1 (Except.ok t1)) fb2 (Except.ok t2)).current_script
      = some t2 := by
  have hcurF : pyTruthy s.current_script = false := by rw [hcur]; rfl
  have h1 : generateStep s fb1 (Except.ok t1)
      = { s with current_script := some t1 } := by
    simp [generateStep, hsel, hcurF]
  have hsel2 : pyTruthy ({ s with current_script := some t1 } : SessionState).selected_idea
      = true := hsel
  have hcur2 : pyTruthy (some t1) = true := by simp [pyTruthy, ht1]
  rw [h1]
  refine ⟨hhist, rfl, ?_, ?_⟩ <;>
    simp [generateStep, hsel2, hcur2, hhist]

/-- Witness for recordGeneration_pairs_prior_script_with_feedback on a
concrete fresh session and two concrete generations. -/
theorem recordGeneration_pairs_prior_script_with_feedback_witness :
    (generateStep (generateStep ⟨some "t", some "idea", none, []⟩ "fb1" (Except.ok "v1"))
        "fb2" (Except.ok "v2")).revision_history = [("v1", "fb2")] :=
  (recordGeneration_pairs_prior_script_with_feedback
    ⟨some "t", some "idea", none, []⟩ "v1" "fb1" "v2" "fb2"
    (by decide) rfl rfl (by decide)).2.2.1

/-- C4 counterexample: with three ideas available, selecting index 4 is out
of range, yet the handler raises no index error at all: its guard tests the
constant bound 3, so the input falls through silently. -/
theorem selectIdea_out_of_range_silent_counterexample :
    selectIdea ["A", "B", "C"] "4" = SelectOutcome.noop ∧
    SelectOutcome.noop ≠ SelectOutcome.indexError := by
  decide

/-- C4 (amended): selection succeeds with the i-th idea exactly when the
input is a nonempty digit string with 1 le i le 3 that indexes into the
idea list; a digit in 1..3 beyond the end of the list raises an uncaught
IndexError; every other input is ignored silently with no error of any
kind. In every non-success case the selected idea is left unchanged. -/
theorem selectIdea_characterization (ideas : List String) (input : String) :
    (selectIdea ideas input = SelectOutcome.noop
      ↔ ¬ (input ≠ "" ∧ pyIsDigitStr input = true ∧ 1 ≤ pyInt input ∧ pyInt input ≤ 3)) ∧
    (∀ idea, selectIdea ideas input = SelectOutcome.selected idea
      ↔ ((input ≠ "" ∧ pyIsDigitStr input = true ∧ 1 ≤ pyInt input ∧ pyInt input ≤ 3) ∧
          ideas[pyInt input - 1]? = some idea)) ∧
    (selectIdea ideas input = SelectOutcome.indexError
      ↔ ((input ≠ "" ∧ pyIsDigitStr input = true ∧ 1 ≤ pyInt input ∧ pyInt input ≤ 3) ∧
          ideas[pyInt input - 1]? = none)) ∧
    (∀ s : SessionState, (∀ idea, selectIdea ideas input ≠ SelectOutcome.selected idea) →
        (selectStep s ideas input).selected_idea = s.selected_idea) := by
  refine ⟨?_, ?_, ?_, ?_⟩
  · by_cases hc : input ≠ "" ∧ pyIsDigitStr input = true ∧ 1 ≤ pyInt input ∧ pyInt input ≤ 3
    · cases hg : ideas[pyInt input - 1]? <;> simp [selectIdea, hc, hg]
    · simp [selectIdea, hc]
  · intro idea
    by_cases hc : input ≠ "" ∧ pyIsDigitStr input = true ∧ 1 ≤ pyInt input ∧ pyInt input ≤ 3
    · cases hg : ideas[pyInt input - 1]? with
      | none => simp [selectIdea, hc, hg]
      | some x => simp [selectIdea, hc, hg, eq_comm]
    · simp [selectIdea, hc]
  · by_cases hc : input ≠ "" ∧ pyIsDigitStr input = true ∧ 1 ≤ pyInt input ∧ pyInt input ≤ 3
    · cases hg : ideas[pyInt input - 1]? <;> simp [selectIdea, hc, hg]
    · simp [selectIdea, hc]
  · intro s hno
    unfold selectStep
    by_cases hguard : pyTruthy s.transcript ∧ ¬ pyTruthy s.selected_idea
    · rw [if_pos hguard]
      cases hsel : selectIdea ideas input with
      | selected idea => exact absurd hsel (hno idea)
      | noop => rfl
      | indexError => rfl
    · rw [if_neg hguard]

/-- Witness for selectIdea_characterization: with a single idea, index 2
passes the constant-bound guard and hits the uncaught IndexError case. -/
theorem selectIdea_characterization_witness :
    selectIdea ["A"] "2" = SelectOutcome.indexError :=
  (selectIdea_characterization ["A"] "2").2.2.1.mpr (by decide)

/-- C6 counterexample: a prior script is present but the feedback is empty,
and the handler builds the compose request, not a revise request: the
condition conjoins truthiness of the prior script with truthiness of the
feedback, so priorScript alone does not select the revise form. -/
theorem generate_script_empty_feedback_counterexample :
    (some "draft" : Option String).isSome = true ∧
    SimplifiedApp.generate_script_prompt [] "t" "idea" "" (some "draft")
      = SimplifiedApp.composeRequest "idea" "" "t" ∧
    pyStartsWith (SimplifiedApp.generate_script_prompt [] "t" "idea" "" (some "draft"))
      "Revise" = false := by
  refine ⟨rfl, rfl, by decide⟩

/-- C6 (amended): the revise request, carrying the serialized history
context, the prior script and the feedback, is built exactly when the prior
script and the feedback are both truthy; otherwise, and in particular
whenever the feedback is empty, the compose request carrying transcript,
idea and feedback is built. The returned script is the raw service response
of the built prompt with no post-parsing. -/
theorem generate_script_request_selection (complete : String → String)
    (history : List (String × String)) (t i d : String) (cs : Option String) :
    SimplifiedApp.generate_script complete history t i d cs
      = complete (SimplifiedApp.generate_script_prompt history t i d cs) ∧
    (pyTruthy cs = true → d ≠ "" →
      SimplifiedApp.generate_script_prompt history t i d cs
        = SimplifiedApp.reviseRequest
            (if history ≠ [] then SimplifiedApp.format_history history else "")
            (cs.getD "") d) ∧
    (pyTruthy cs = false ∨ d = "" →
      SimplifiedApp.generate_script_prompt history t i d cs
        = SimplifiedApp.composeRequest i d t) := by
  refine ⟨rfl, ?_, ?_⟩
  · intro h1 h2
    simp [SimplifiedApp.generate_script_prompt, h1, h2]
  · intro h
    rcases h with h | h
    · simp [SimplifiedApp.generate_script_prompt, h]
    · simp [SimplifiedApp.generate_script_prompt, h]

/-- Witness for generate_script_request_selection: a present prior script
with empty feedback yields the compose request. -/
theorem generate_script_request_selection_witness :
    SimplifiedApp.generate_script_prompt [] "t" "idea" "" (some "draft")
      = SimplifiedApp.composeRequest "idea" "" "t" :=
  (generate_script_request_selection id [] "t" "idea" "" (some "draft")).2.2
    (Or.inr rfl)

/-- Once the selected idea is truthy, no guavawriter2 action changes it:
the selection handler is rendered only while no idea is selected, and no
other handler writes the field. -/
theorem applyAction_preserves_truthy_selection (s : SessionState)
    (hsel : pyTruthy s.selected_idea = true) (a : Action) :
    (applyAction s a).selected_idea = s.selected_idea := by
  cases a with
  | ideate fetch => cases fetch <;> rfl
  | select ideas input =>
    have hguard : ¬ (pyTruthy s.transcript ∧ ¬ pyTruthy s.selected_idea) := by
      intro h
      exact h.2 hsel
    show (selectStep s ideas input).selected_idea = s.selected_idea
    unfold selectStep
    rw [if_neg hguard]
  | generate direction gw =>
    by_cases hcur : pyTruthy s.current_script = true <;>
      cases gw <;> simp [applyAction, generateStep, hsel, hcur]
  | approve => rfl

/-- In every reachable guavawriter2 session, a set current script implies a
truthy selected idea: scripts are only ever generated behind the
idea-selected gate, and the selection is never cleared. -/
theorem reachable_script_implies_selection (s : SessionState) (hr : Reachable s) :
    s.current_script.isSome = true → pyTruthy s.selected_idea = true := by
  induction hr with
  | init => intro h; cases h
  | next s a hr ih =>
    cases a with
    | ideate fetch =>
      cases fetch with
      | ok t => intro h; exact ih h
      | error e => intro h; exact ih h
    | select ideas input =>
      by_cases hsel : pyTruthy s.selected_idea = true
      · rw [applyAction_preserves_truthy_selection s hsel]
        intro h
        have hguard : ¬ (pyTruthy s.transcript ∧ ¬ pyTruthy s.selected_idea) := by
          intro hg
          exact hg.2 hsel
        simpa [applyAction, selectStep, hguard] using hsel
      · intro h
        by_cases hguard : pyTruthy s.transcript ∧ ¬ pyTruthy s.selected_idea
        · cases hout : selectIdea ideas input with
          | selected idea =>
            have hs : applyAction s (Action.select ideas input)
                = { s with selected_idea := some idea } := by
              show selectStep s ideas input = _
              unfold selectStep
              rw [if_pos hguard, hout]
            rw [hs] at h
            exact absurd (ih h) hsel
          | noop =>
            have hs : applyAction s (Action.select ideas input) = s := by
              show selectStep s ideas input = s
              unfold selectStep
              rw [if_pos hguard, hout]
            rw [hs] at h ⊢
            exact ih h
          | indexError =>
            have hs : applyAction s (Action.select ideas input) = s := by
              show selectStep s ideas input = s
              unfold selectStep
              rw [if_pos hguard, hout]
            rw [hs] at h ⊢
            exact ih h
        · have hs : applyAction s (Action.select ideas input) = s := by
            show selectStep s ideas input = s
            unfold selectStep
            rw [if_neg hguard]
          rw [hs] at h ⊢
          exact ih h
    | generate direction gw =>
      by_cases hsel : pyTruthy s.selected_idea = true
      · intro h
        rw [applyAction_preserves_truthy_selection s hsel]
        exact hsel
      · have hselF : pyTruthy s.selected_idea = false := by
          simpa using hsel
        have hs : applyAction s (Action.generate direction gw) = s := by
          simp [applyAction, generateStep, hselF]
        rw [hs]
        exact ih
    | approve => exact ih

/-- C9 counterexample (simplified-app radio handler): on a session with a
generated idea list, a selected idea and a current script, choosing the
other radio option overwrites the selected idea even though the current
script is set and no new transcript was loaded. -/
theorem radio_reselect_after_script_counterexample :
    (SimplifiedApp.radioStep ⟨some "t", some ["X", "Y"], some "X", some "draft", []⟩
        "Y").selected_idea = some "Y" ∧
    (⟨some "t", some ["X", "Y"], some "X", some "draft", []⟩ :
        SimplifiedApp.AppState).selected_idea = some "X" ∧
    (⟨some "t", some ["X", "Y"], some "X", some "draft", []⟩ :
        SimplifiedApp.AppState).current_script = some "draft" ∧
    (SimplifiedApp.radioStep ⟨some "t", some ["X", "Y"], some "X", some "draft", []⟩
        "Y").current_script = some "draft" := by
  decide

/-- C9 (amended): the freezing invariant holds for the guavawriter2 flow
only: in every reachable guavawriter2 session whose current script is set,
no action — not even a transcript load — changes the selected idea. The
simplified-app radio handler, by contrast, may overwrite the selected idea
at any time while an idea list is present, including after a script exists. -/
theorem selected_idea_frozen_once_scripted (s : SessionState) (hr : Reachable s)
    (hcs : s.current_script.isSome = true) (a : Action) :
    (applyAction s a).selected_idea = s.selected_idea :=
  applyAction_preserves_truthy_selection s (reachable_script_implies_selection s hr hcs) a

/-- Witness for selected_idea_frozen_once_scripted: a concrete reachable
scripted session, on which a further selection attempt leaves the selected
idea intact. -/
theorem selected_idea_frozen_once_scripted_witness :
    (applyAction
        (applyAction
          (applyAction
            (applyAction initialState (Action.ideate (Except.ok "transcript text")))
            (Action.select ["A"] "1"))
          (Action.generate "d" (Except.ok "script")))
        (Action.select ["B"] "1")).selected_idea = some "A" := by
  have h := selected_idea_frozen_once_scripted
    (applyAction
      (applyAction
        (applyAction initialState (Action.ideate (Except.ok "transcript text")))
        (Action.select ["A"] "1"))
      (Action.generate "d" (Except.ok "script")))
    (Reachable.next _ _ (Reachable.next _ _ (Reachable.next _ _ Reachable.init)))
    (by decide)
    (Action.select ["B"] "1")
  rw [h]
  decide
